import Mathlib

/-!
Shallow embedding of the course-progression engine of
`src/CourseTakenModule/service/course.taken.service.ts`
(class `CourseTakenService`).

Modelling conventions:
* Entities of the course hierarchy (Lesson, Part, Test) are represented by
  their ids (`Nat`); the enclosing course is fixed, so the course id is not
  threaded through.  The hierarchy-lookup services (`LessonService`,
  `PartService`, `TestService`) are external collaborators and are
  represented by a `Hierarchy` record of lookup functions.
* Timestamps (`Date.now()`) are `Nat` values passed in as a `now` argument.
* The TypeScript `number` holding the completion percentage is modelled by
  `ℚ` (exact arithmetic).
* A JavaScript `undefined` id flowing into a further lookup is modelled by
  `Option.bind`: a query keyed by an undefined id finds nothing.
-/

namespace NewSchool

/-- `CourseTakenStatusEnum` from `src/CourseTakenModule/enum`. -/
inductive CourseTakenStatusEnum where
  | TAKEN
  | COMPLETED
deriving DecidableEq, Repr

/-- The `CourseTaken` entity (enrollment record).  The `user` and `course`
relations are kept outside the record: the enrollment store keys records by
the `(user, course)` pair. -/
structure CourseTaken where
  currentLesson : Nat
  currentPart : Nat
  currentTest : Nat
  status : CourseTakenStatusEnum
  completition : ℚ
  courseStartDate : Nat
  courseCompleteDate : Option Nat
deriving DecidableEq, Repr

/-- The hierarchy-lookup collaborator (spec section 6):
`findByContainerAndSeq(containerId, seq) → Unit | absent` and
`maxSeq(containerId) → integer ≥ 0`, instantiated for
Lesson-within-Course, Part-within-Lesson and Test-within-Part.
`findLessonByCourseIdAndSeqNum` also stands for
`getLessonIdByCourseIdAndSeqNum` (both return the id of the lesson of the
fixed course at the given sequence number), and likewise for parts. -/
structure Hierarchy where
  findLessonByCourseIdAndSeqNum : Nat → Option Nat
  findPartByLessonIdAndSeqNum : Nat → Nat → Option Nat
  findTestByPartIdAndSeqNum : Nat → Nat → Option Nat
  getMaxValueForLesson : Nat
  getMaxValueForPart : Nat → Nat
  getMaxValueForTest : Nat → Nat

/-- Lookup of a part when the lesson id may itself be undefined (a query
keyed by an undefined id finds nothing). -/
def findPartOpt (H : Hierarchy) (lessonId : Option Nat) (seq : Nat) : Option Nat :=
  lessonId.bind fun lid => H.findPartByLessonIdAndSeqNum lid seq

/-- Lookup of a test when the part id may itself be undefined. -/
def findTestOpt (H : Hierarchy) (partId : Option Nat) (seq : Nat) : Option Nat :=
  partId.bind fun pid => H.findTestByPartIdAndSeqNum pid seq

/-- `getMaxValueForPart` applied to a possibly-undefined lesson id.
Modelled from the spec: `maxSeq(containerId) → integer ≥ 0`; a container id
that did not resolve designates no container, so its maximum sequence
number is `0` (in the source this is a `MAX` aggregate over no rows). -/
def maxPartOpt (H : Hierarchy) : Option Nat → Nat
  | none => 0
  | some lid => H.getMaxValueForPart lid

/-- `getMaxValueForTest` applied to a possibly-undefined part id. -/
def maxTestOpt (H : Hierarchy) : Option Nat → Nat
  | none => 0
  | some pid => H.getMaxValueForTest pid

/-- `updateCourseStatus` line 133: the id of the lesson of the course at the
enrollment's current (pre-advancement) lesson sequence number. -/
def currentLessonId (H : Hierarchy) (ct : CourseTaken) : Option Nat :=
  H.findLessonByCourseIdAndSeqNum ct.currentLesson

/-- `updateCourseStatus` line 134: the id of the part at the current
(pre-advancement) part sequence number within `currentLessonId`. -/
def currentPartId (H : Hierarchy) (ct : CourseTaken) : Option Nat :=
  findPartOpt H (currentLessonId H ct) ct.currentPart

/-- `updateCourseStatus` line 136: probe for a test at sequence
`currentTest + 1` in the current part. -/
def nextTest (H : Hierarchy) (ct : CourseTaken) : Option Nat :=
  findTestOpt H (currentPartId H ct) (ct.currentTest + 1)

/-- `updateCourseStatus` line 137: probe for a part at sequence
`currentPart + 1` in the current lesson. -/
def nextPart (H : Hierarchy) (ct : CourseTaken) : Option Nat :=
  findPartOpt H (currentLessonId H ct) (ct.currentPart + 1)

/-- `updateCourseStatus` line 138: probe for a lesson at sequence
`currentLesson + 1` in the course. -/
def nextLesson (H : Hierarchy) (ct : CourseTaken) : Option Nat :=
  H.findLessonByCourseIdAndSeqNum (ct.currentLesson + 1)

/-- `prepareCourseTakenUpdatedInfo` (lines 147-163): the three-level carry.
The first non-exhausted level wins; when none exists the enrollment is
completed and `courseCompleteDate` is set to the current time. -/
def prepareCourseTakenUpdatedInfo (ct : CourseTaken)
    (nt np nl : Option Nat) (now : Nat) : CourseTaken :=
  match nt with
  | some _ => { ct with currentTest := ct.currentTest + 1 }
  | none =>
    match np with
    | some _ => { ct with currentTest := 1, currentPart := ct.currentPart + 1 }
    | none =>
      match nl with
      | some _ =>
        { ct with currentTest := 1, currentPart := 1,
                  currentLesson := ct.currentLesson + 1 }
      | none =>
        { ct with status := CourseTakenStatusEnum.COMPLETED,
                  courseCompleteDate := some now }

/-- `calculateCompletition` (lines 166-187).  `currentLesson` / `currentPart`
are the container ids handed over by `updateCourseStatus`. -/
def calculateCompletition (H : Hierarchy) (ct : CourseTaken)
    (currentLesson currentPart : Option Nat) : ℚ :=
  let lessonsAmount : ℚ := H.getMaxValueForLesson
  let partsAmount : ℚ := maxPartOpt H currentLesson
  let testsAmount : ℚ := maxTestOpt H currentPart
  let completition : ℚ :=
    if ct.status = CourseTakenStatusEnum.TAKEN then
      let percentualPerLesson := 100 / lessonsAmount
      let percentualPerPart := percentualPerLesson / partsAmount
      let percentualPerTest := percentualPerPart / testsAmount
      percentualPerLesson * ((ct.currentLesson : ℚ) - 1)
        + percentualPerPart * ((ct.currentPart : ℚ) - 1)
        + percentualPerTest * ((ct.currentTest : ℚ) - 1)
    else
      100
  if completition > 100 then 100 else completition

/-- `updateCourseStatus` (lines 131-144): resolve the current container ids,
advance the pointer, then recompute the completion percentage — note that
the container ids passed to `calculateCompletition` were resolved from the
pre-advancement pointer values (lines 133-134 run before line 139). -/
def updateCourseStatus (H : Hierarchy) (now : Nat) (ct : CourseTaken) : CourseTaken :=
  let ct1 := prepareCourseTakenUpdatedInfo ct
    (nextTest H ct) (nextPart H ct) (nextLesson H ct) now
  { ct1 with completition :=
      calculateCompletition H ct1 (currentLessonId H ct) (currentPartId H ct) }

/-- Variant of `updateCourseStatus` written after the spec's words for the
RecomputeCompletion step ("the cardinalities of the current containers,
evaluated after advancement, i.e., against the pointer values that resulted
from AdvancePointer, not the pre-advancement ones"): the container ids
handed to `calculateCompletition` are re-resolved from the post-advancement
pointer values.  Kept separate from `updateCourseStatus` for comparison. -/
def updateCourseStatusSpecC3 (H : Hierarchy) (now : Nat) (ct : CourseTaken) : CourseTaken :=
  let ct1 := prepareCourseTakenUpdatedInfo ct
    (nextTest H ct) (nextPart H ct) (nextLesson H ct) now
  { ct1 with completition :=
      calculateCompletition H ct1 (currentLessonId H ct1) (currentPartId H ct1) }

/-- The nested resolution of `attendAClass` (lines 78-94): the current
lesson, part and test ids when all three resolve. -/
def resolveTriple (H : Hierarchy) (ct : CourseTaken) : Option (Nat × Nat × Nat) :=
  match currentLessonId H ct with
  | none => none
  | some lid =>
    match H.findPartByLessonIdAndSeqNum lid ct.currentPart with
    | none => none
    | some pid =>
      match H.findTestByPartIdAndSeqNum pid ct.currentTest with
      | none => none
      | some tid => some (lid, pid, tid)

/-- `AttendAClassDTO`: the snapshot returned to the caller (the fixed
`user` and `course` fields are omitted; entities are their ids). -/
structure AttendAClassDTO where
  currentLesson : Option Nat
  currentPart : Option Nat
  currentTest : Option Nat
  completition : ℚ
  status : CourseTakenStatusEnum
deriving DecidableEq, Repr

/-- `prepareAttendAClassDTO` (lines 108-119). -/
def prepareAttendAClassDTO (ct : CourseTaken)
    (l p t : Option Nat) : AttendAClassDTO :=
  { currentLesson := l, currentPart := p, currentTest := t,
    completition := ct.completition, status := ct.status }

/-- `attendAClass` (lines 74-106), with the enrollment state passed
explicitly and a fuel argument bounding the tail recursion of line 104
(`none` = fuel exhausted).  On a resolving pointer the snapshot is returned
with no mutation; otherwise the enrollment is advanced via
`updateCourseStatus` and, unless it is now COMPLETED, the call recurses. -/
def attendAClass (H : Hierarchy) (now : Nat) :
    Nat → CourseTaken → Option (AttendAClassDTO × CourseTaken)
  | 0, _ => none
  | fuel + 1, ct =>
    match resolveTriple H ct with
    | some (lid, pid, tid) =>
      some (prepareAttendAClassDTO ct (some lid) (some pid) (some tid), ct)
    | none =>
      let ct2 := updateCourseStatus H now ct
      if ct2.status = CourseTakenStatusEnum.COMPLETED then
        some (prepareAttendAClassDTO ct2 none none none, ct2)
      else
        attendAClass H now fuel ct2

/-- The errors thrown by the service: `ConflictException` and
`NotFoundException` with their messages. -/
inductive ServiceError where
  | conflictException (msg : String)
  | notFoundException (msg : String)
deriving DecidableEq, Repr

/-- The enrollment store: records keyed by the `(user, course)` pair. -/
abbrev EnrollmentStore := List ((Nat × Nat) × CourseTaken)

/-- `repository.findByUserIdAndCourseId`: first record for the pair. -/
def findRecord : EnrollmentStore → Nat → Nat → Option CourseTaken
  | [], _, _ => none
  | r :: rest, u, c => if r.1 = (u, c) then some r.2 else findRecord rest u c

/-- `repository.save`: replace the record for the pair, or append it. -/
def saveRecord : EnrollmentStore → Nat → Nat → CourseTaken → EnrollmentStore
  | [], u, c, e => [((u, c), e)]
  | r :: rest, u, c, e =>
    if r.1 = (u, c) then ((u, c), e) :: rest else r :: saveRecord rest u c e

/-- `attendAClass` at the store level: load the enrollment for the pair
(`NotFoundException` if absent, line 125), run the progression, persist the
final state. -/
def attendAClassStore (H : Hierarchy) (now fuel : Nat)
    (store : EnrollmentStore) (u c : Nat) :
    Option (Except ServiceError (AttendAClassDTO × EnrollmentStore)) :=
  match findRecord store u c with
  | none => some (Except.error (ServiceError.notFoundException "Course not taken by user"))
  | some ct =>
    match attendAClass H now fuel ct with
    | none => none
    | some (d, ct2) => some (Except.ok (d, saveRecord store u c ct2))

/-- The enrollment entity created by `add` (lines 34-38): pointers
`(1,1,1)`, status TAKEN, `courseStartDate = now`.  Modelled from the spec:
the entity's initial completion is `0` (the `completition` column default is
not under `src/`; the spec's invariant `completion ∈ [0, 100]` fixes the
degenerate initial value). -/
def freshEnrollment (now : Nat) : CourseTaken :=
  { currentLesson := 1, currentPart := 1, currentTest := 1,
    status := CourseTakenStatusEnum.TAKEN, completition := 0,
    courseStartDate := now, courseCompleteDate := none }

/-- `add` (lines 26-43): reject a duplicate `(user, course)` pair with
`ConflictException`, otherwise create the fresh enrollment, persist it and
immediately attend a class.  The surrounding `@Transactional()` rolls the
store back on an exception. -/
def add (H : Hierarchy) (now fuel : Nat) (store : EnrollmentStore) (u c : Nat) :
    Option (Except ServiceError AttendAClassDTO × EnrollmentStore) :=
  match findRecord store u c with
  | some _ =>
    some (Except.error (ServiceError.conflictException "Course already taken by user"), store)
  | none =>
    let store1 := saveRecord store u c (freshEnrollment now)
    match attendAClassStore H now fuel store1 u c with
    | none => none
    | some (Except.error e) => some (Except.error e, store)
    | some (Except.ok (d, store2)) => some (Except.ok d, store2)

/-- In JavaScript the guard `!xs` on an Array value is `false` even for the
empty array, so the emptiness checks of `getAllByUserId` / `getAllByCourseId`
never fire on a returned row list. -/
def jsArrayNotCheck (_ : List CourseTaken) : Bool := false

/-- `getAllByUserId` (lines 54-60).  Modelled from the spec:
`EnrollmentStore.listByUser(user) → sequence of Enrollment` — the repository
(not under `src/`) returns the (possibly empty) list of matching rows, and
the service's `if (!courseTaken)` check is evaluated under JavaScript
truthiness. -/
def getAllByUserId (rows : List CourseTaken) : Except ServiceError (List CourseTaken) :=
  if jsArrayNotCheck rows then
    Except.error (ServiceError.notFoundException "This user did not started any course")
  else
    Except.ok rows

/-- `getAllByCourseId` (lines 64-70), same shape as `getAllByUserId`. -/
def getAllByCourseId (rows : List CourseTaken) : Except ServiceError (List CourseTaken) :=
  if jsArrayNotCheck rows then
    Except.error (ServiceError.notFoundException "No users have started this course")
  else
    Except.ok rows

/-! ### Ambient model of the collaborators and the state invariant -/

/-- A course with no content at all: every lookup fails, every container is
empty. -/
def Hempty : Hierarchy :=
  { findLessonByCourseIdAndSeqNum := fun _ => none,
    findPartByLessonIdAndSeqNum := fun _ _ => none,
    findTestByPartIdAndSeqNum := fun _ _ => none,
    getMaxValueForLesson := 0,
    getMaxValueForPart := fun _ => 0,
    getMaxValueForTest := fun _ => 0 }

/-- A freshly created enrollment: pointers `(1,1,1)`, status TAKEN,
started at time `0`. -/
def ct0 : CourseTaken :=
  { currentLesson := 1, currentPart := 1, currentTest := 1,
    status := CourseTakenStatusEnum.TAKEN, completition := 0,
    courseStartDate := 0, courseCompleteDate := none }

/-- A course with one lesson (id 10) holding one part (id 20) holding one
test (id 30): the pointer `(1,1,1)` resolves. -/
def Hone : Hierarchy :=
  { findLessonByCourseIdAndSeqNum := fun s => if s = 1 then some 10 else none,
    findPartByLessonIdAndSeqNum := fun lid s => if lid = 10 ∧ s = 1 then some 20 else none,
    findTestByPartIdAndSeqNum := fun pid s => if pid = 20 ∧ s = 1 then some 30 else none,
    getMaxValueForLesson := 1,
    getMaxValueForPart := fun lid => if lid = 10 then 1 else 0,
    getMaxValueForTest := fun pid => if pid = 20 then 1 else 0 }

/-- The course of the carry-correctness test: 2 lessons (ids 11, 12),
lesson 1 having exactly 1 part (id 21) with exactly 1 test (id 31). -/
def Hcarry : Hierarchy :=
  { findLessonByCourseIdAndSeqNum := fun s =>
      if s = 1 then some 11 else if s = 2 then some 12 else none,
    findPartByLessonIdAndSeqNum := fun lid s => if lid = 11 ∧ s = 1 then some 21 else none,
    findTestByPartIdAndSeqNum := fun pid s => if pid = 21 ∧ s = 1 then some 31 else none,
    getMaxValueForLesson := 2,
    getMaxValueForPart := fun lid => if lid = 11 then 1 else 0,
    getMaxValueForTest := fun pid => if pid = 21 then 1 else 0 }

/-- The course of the completion-arithmetic test: cardinalities
`L = P = T = 2` everywhere. -/
def Htwo : Hierarchy :=
  { findLessonByCourseIdAndSeqNum := fun s => if s ≤ 2 then some s else none,
    findPartByLessonIdAndSeqNum := fun _ s => if s ≤ 2 then some s else none,
    findTestByPartIdAndSeqNum := fun _ s => if s ≤ 2 then some s else none,
    getMaxValueForLesson := 2,
    getMaxValueForPart := fun _ => 2,
    getMaxValueForTest := fun _ => 2 }

/-- An enrollment pointing at `(2,2,2)` with status TAKEN. -/
def ct222 : CourseTaken :=
  { currentLesson := 2, currentPart := 2, currentTest := 2,
    status := CourseTakenStatusEnum.TAKEN, completition := 0,
    courseStartDate := 0, courseCompleteDate := none }

/-- Two lessons (ids 10, 20) with different part counts (3 in lesson 1,
7 in lesson 2); lesson 1 has one part (id 30) with one test (id 40), so an
advancement from `(1,1,1)` is a lesson-level carry. -/
def HlessonCarry : Hierarchy :=
  { findLessonByCourseIdAndSeqNum := fun s =>
      if s = 1 then some 10 else if s = 2 then some 20 else none,
    findPartByLessonIdAndSeqNum := fun lid s => if lid = 10 ∧ s = 1 then some 30 else none,
    findTestByPartIdAndSeqNum := fun pid s => if pid = 30 ∧ s = 1 then some 40 else none,
    getMaxValueForLesson := 2,
    getMaxValueForPart := fun lid => if lid = 10 then 3 else if lid = 20 then 7 else 0,
    getMaxValueForTest := fun pid => if pid = 30 then 1 else 0 }

/-- A course whose lesson sequence numbers have a gap: no lesson at
sequence 1, a lesson (id 20) at sequence 2 with one part (id 30) holding
one test (id 40). -/
def Hgap : Hierarchy :=
  { findLessonByCourseIdAndSeqNum := fun s => if s = 2 then some 20 else none,
    findPartByLessonIdAndSeqNum := fun lid s => if lid = 20 ∧ s = 1 then some 30 else none,
    findTestByPartIdAndSeqNum := fun pid s => if pid = 30 ∧ s = 1 then some 40 else none,
    getMaxValueForLesson := 2,
    getMaxValueForPart := fun lid => if lid = 20 then 1 else 0,
    getMaxValueForTest := fun pid => if pid = 30 then 1 else 0 }

/-! ### Unfolding and basic lemmas -/

lemma attendAClass_succ (H : Hierarchy) (now fuel : Nat) (ct : CourseTaken) :
    attendAClass H now (fuel + 1) ct =
      match resolveTriple H ct with
      | some (lid, pid, tid) =>
        some (prepareAttendAClassDTO ct (some lid) (some pid) (some tid), ct)
      | none =>
        let ct2 := updateCourseStatus H now ct
        if ct2.status = CourseTakenStatusEnum.COMPLETED then
          some (prepareAttendAClassDTO ct2 none none none, ct2)
        else
          attendAClass H now fuel ct2 := rfl

lemma calc_completed (H : Hierarchy) (ct : CourseTaken) (lid pid : Option Nat)
    (h : ct.status = CourseTakenStatusEnum.COMPLETED) :
    calculateCompletition H ct lid pid = 100 := by
  simp [calculateCompletition, h]

/-- Claim C1: one `updateCourseStatus` step performs a three-level carry in
which the first non-exhausted level wins: a next test only bumps
`currentTest`; otherwise a next part bumps `currentPart` and resets
`currentTest` to 1, leaving `currentLesson` unchanged; otherwise a next
lesson bumps `currentLesson` and resets `currentPart` and `currentTest`
to 1. -/
theorem updateCourseStatus_carry (H : Hierarchy) (now : Nat) (ct : CourseTaken) :
    (∀ tid, nextTest H ct = some tid →
      (updateCourseStatus H now ct).currentTest = ct.currentTest + 1 ∧
      (updateCourseStatus H now ct).currentPart = ct.currentPart ∧
      (updateCourseStatus H now ct).currentLesson = ct.currentLesson) ∧
    (nextTest H ct = none → ∀ pid, nextPart H ct = some pid →
      (updateCourseStatus H now ct).currentPart = ct.currentPart + 1 ∧
      (updateCourseStatus H now ct).currentTest = 1 ∧
      (updateCourseStatus H now ct).currentLesson = ct.currentLesson) ∧
    (nextTest H ct = none → nextPart H ct = none → ∀ lid, nextLesson H ct = some lid →
      (updateCourseStatus H now ct).currentLesson = ct.currentLesson + 1 ∧
      (updateCourseStatus H now ct).currentPart = 1 ∧
      (updateCourseStatus H now ct).currentTest = 1) := by
  refine ⟨fun tid ht => ?_, fun ht pid hp => ?_, fun ht hp lid hl => ?_⟩ <;>
    simp [updateCourseStatus, prepareCourseTakenUpdatedInfo, ht]
  · simp [hp]
  · simp [hp, hl]

/-- Witness for C1, realizing the concrete scenario of the claim: a course
with 2 lessons, lesson 1 having exactly 1 part with exactly 1 test; one
advancement from `(1,1,1)` yields `(2,1,1)`. -/
theorem updateCourseStatus_carry_witness :
    nextTest Hcarry ct0 = none ∧ nextPart Hcarry ct0 = none ∧
    nextLesson Hcarry ct0 = some 12 ∧
    (updateCourseStatus Hcarry 5 ct0).currentLesson = 2 ∧
    (updateCourseStatus Hcarry 5 ct0).currentPart = 1 ∧
    (updateCourseStatus Hcarry 5 ct0).currentTest = 1 :=
  ⟨rfl, rfl, rfl,
   ((updateCourseStatus_carry Hcarry 5 ct0).2.2 rfl rfl 12 rfl).1,
   ((updateCourseStatus_carry Hcarry 5 ct0).2.2 rfl rfl 12 rfl).2.1,
   ((updateCourseStatus_carry Hcarry 5 ct0).2.2 rfl rfl 12 rfl).2.2⟩

/-- Claim C2: when the stored pointers all resolve, `attendAClass` returns
the snapshot immediately with no mutation of the stored enrollment, and a
second call on the unchanged position returns the identical snapshot and
again leaves the state unchanged. -/
theorem attendAClass_validPointer_idempotent (H : Hierarchy) (now1 now2 fuel1 fuel2 : Nat)
    (ct : CourseTaken) (lid pid tid : Nat)
    (h : resolveTriple H ct = some (lid, pid, tid)) :
    attendAClass H now1 (fuel1 + 1) ct =
      some (prepareAttendAClassDTO ct (some lid) (some pid) (some tid), ct) ∧
    attendAClass H now2 (fuel2 + 1) ct =
      some (prepareAttendAClassDTO ct (some lid) (some pid) (some tid), ct) := by
  rw [attendAClass_succ, attendAClass_succ, h]
  exact ⟨rfl, rfl⟩

/-- Witness for C2 on a concrete course where `(1,1,1)` resolves. -/
theorem attendAClass_validPointer_idempotent_witness :
    resolveTriple Hone ct0 = some (10, 20, 30) ∧
    attendAClass Hone 0 1 ct0 =
      some (prepareAttendAClassDTO ct0 (some 10) (some 20) (some 30), ct0) ∧
    attendAClass Hone 7 5 ct0 =
      some (prepareAttendAClassDTO ct0 (some 10) (some 20) (some 30), ct0) :=
  ⟨rfl, (attendAClass_validPointer_idempotent Hone 0 7 0 4 ct0 10 20 30 rfl).1,
   (attendAClass_validPointer_idempotent Hone 0 7 0 4 ct0 10 20 30 rfl).2⟩

/-- Claim C4: for a TAKEN enrollment the recomputed completion equals
`perLesson*(currentLesson-1) + perPart*(currentPart-1) + perTest*(currentTest-1)`
with `perLesson = 100/L`, `perPart = perLesson/P`, `perTest = perPart/T`,
clamped above at 100; for L = P = T = 2 and pointer (2,2,2) it is 87.5;
for a COMPLETED enrollment it is 100 regardless of the pointers. -/
theorem calculateCompletition_formula (H : Hierarchy) (ct : CourseTaken)
    (lid pid : Option Nat) :
    (ct.status = CourseTakenStatusEnum.TAKEN →
      calculateCompletition H ct lid pid =
        min 100 (100 / (H.getMaxValueForLesson : ℚ) * ((ct.currentLesson : ℚ) - 1)
          + 100 / (H.getMaxValueForLesson : ℚ) / (maxPartOpt H lid : ℚ) *
              ((ct.currentPart : ℚ) - 1)
          + 100 / (H.getMaxValueForLesson : ℚ) / (maxPartOpt H lid : ℚ) /
              (maxTestOpt H pid : ℚ) * ((ct.currentTest : ℚ) - 1))) ∧
    (ct.status = CourseTakenStatusEnum.COMPLETED →
      calculateCompletition H ct lid pid = 100) ∧
    calculateCompletition Htwo ct222 (some 1) (some 1) = 175 / 2 := by
  refine ⟨fun h => ?_, fun h => calc_completed H ct lid pid h,
    by norm_num [calculateCompletition, Htwo, ct222, maxPartOpt, maxTestOpt]⟩
  simp only [calculateCompletition, h, if_pos]
  rw [min_def]
  split_ifs <;> linarith

/-- Witness for C4: the concrete 87.5 example via the formula theorem. -/
theorem calculateCompletition_formula_witness :
    ct222.status = CourseTakenStatusEnum.TAKEN ∧
    calculateCompletition Htwo ct222 (some 1) (some 1) = 175 / 2 :=
  ⟨rfl, (calculateCompletition_formula Htwo ct222 (some 1) (some 1)).2.2⟩

/-- Claim C7 (code bug): the listing guards never fire — in JavaScript an
Array value is never falsy, so `getAllByUserId` / `getAllByCourseId` return
an empty result set as a successful empty sequence instead of throwing
`NotFoundException`. -/
theorem getAll_empty_returns_ok :
    getAllByUserId [] = Except.ok [] ∧ getAllByCourseId [] = Except.ok [] :=
  ⟨rfl, rfl⟩

/-- Counterexample for C3: on a lesson-level carry the container whose part
cardinality the code queries is the pre-advancement lesson (id 10, maximum
part sequence 3), not the post-advancement lesson (id 20, maximum part
sequence 7); the last conjunct records that `updateCourseStatus` indeed
hands the pre-advancement ids to `calculateCompletition`. -/
theorem updateCourseStatus_preAdvancement_counterexample :
    nextTest HlessonCarry ct0 = none ∧ nextPart HlessonCarry ct0 = none ∧
    nextLesson HlessonCarry ct0 = some 20 ∧
    maxPartOpt HlessonCarry (currentLessonId HlessonCarry ct0) = 3 ∧
    maxPartOpt HlessonCarry (currentLessonId HlessonCarry
      (prepareCourseTakenUpdatedInfo ct0 (nextTest HlessonCarry ct0)
        (nextPart HlessonCarry ct0) (nextLesson HlessonCarry ct0) 0)) = 7 ∧
    maxPartOpt HlessonCarry (currentLessonId HlessonCarry ct0) ≠
      maxPartOpt HlessonCarry (currentLessonId HlessonCarry
        (prepareCourseTakenUpdatedInfo ct0 (nextTest HlessonCarry ct0)
          (nextPart HlessonCarry ct0) (nextLesson HlessonCarry ct0) 0)) ∧
    (updateCourseStatus HlessonCarry 0 ct0).completition =
      calculateCompletition HlessonCarry
        (prepareCourseTakenUpdatedInfo ct0 (nextTest HlessonCarry ct0)
          (nextPart HlessonCarry ct0) (nextLesson HlessonCarry ct0) 0)
        (currentLessonId HlessonCarry ct0) (currentPartId HlessonCarry ct0) := by
  refine ⟨rfl, rfl, rfl, rfl, rfl, by decide, rfl⟩

/-- Counterexample for C6: on a course with no content, the first
`attendAClass` call (at time 5) completes the enrollment and sets
`courseCompleteDate := 5`; a later call (at time 9) on the already
COMPLETED enrollment reassigns the stored `courseCompleteDate` to 9. -/
theorem courseCompleteDate_reassigned_counterexample :
    (attendAClass Hempty 5 1 ct0).map (fun p => p.2.courseCompleteDate) = some (some 5) ∧
    ((attendAClass Hempty 5 1 ct0).map fun p => p.2.status) =
      some CourseTakenStatusEnum.COMPLETED ∧
    ((attendAClass Hempty 5 1 ct0).bind fun p => attendAClass Hempty 9 1 p.2).map
      (fun p => p.2.courseCompleteDate) = some (some 9) := by
  refine ⟨rfl, rfl, rfl⟩

/-- Counterexample for C9: starting from the freshly created enrollment
`ct0` on a course whose lesson sequence numbers start at 2, the pointer does
not resolve, so `attendAClass` advances; the advanced status is still TAKEN,
yet the part and test cardinalities the recomputation divides by — queried
from the unresolved pre-advancement lesson and part — are both 0. -/
theorem calculateCompletition_zero_divisor_counterexample :
    ct0.status = CourseTakenStatusEnum.TAKEN ∧
    resolveTriple Hgap ct0 = none ∧
    (updateCourseStatus Hgap 0 ct0).status = CourseTakenStatusEnum.TAKEN ∧
    maxPartOpt Hgap (currentLessonId Hgap ct0) = 0 ∧
    maxTestOpt Hgap (currentPartId Hgap ct0) = 0 := by
  refine ⟨rfl, rfl, rfl, rfl, rfl⟩

/-- Counterexample for C10: on a course with no lesson at sequence 1 but a
lesson at sequence 2 (with content), `add` does not complete the
enrollment — the returned snapshot has status TAKEN with the resolved units
of lesson 2 and completion 50. -/
theorem add_missingLessonOne_counterexample :
    Hgap.findLessonByCourseIdAndSeqNum 1 = none ∧
    ((add Hgap 0 3 [] 0 0).map fun p =>
        p.1.toOption.map fun d => (d.status, d.currentLesson, d.currentPart, d.currentTest)) =
      some (some (CourseTakenStatusEnum.TAKEN, some 20, some 30, some 40)) := by
  refine ⟨rfl, rfl⟩

/-! ### Arithmetic bounds for the completion percentage -/

/-- Claim C3 (amended): the cardinalities queried by the recomputation are
those of the containers designated by the pre-advancement pointer values
(the ids of lines 133-134, resolved before the carry of line 139), not the
post-advancement ones.  Only on the steps without a carry — a test-level
increment or the completing step, which leave the lesson and part pointers
unchanged — do the queried containers coincide with the post-advancement
ones, making the whole step identical to the spec-worded variant; on a
carry step the queried containers can differ, as the counterexample
shows. -/
theorem updateCourseStatus_eq_specC3 (H : Hierarchy) (now : Nat) (ct : CourseTaken) :
    (∀ tid, nextTest H ct = some tid →
      updateCourseStatus H now ct = updateCourseStatusSpecC3 H now ct) ∧
    (nextTest H ct = none → nextPart H ct = none → nextLesson H ct = none →
      updateCourseStatus H now ct = updateCourseStatusSpecC3 H now ct) := by
  constructor
  · intro tid hnt
    simp [updateCourseStatus, updateCourseStatusSpecC3, hnt,
      prepareCourseTakenUpdatedInfo, currentLessonId, currentPartId, findPartOpt]
  · intro hnt hnp hnl
    simp [updateCourseStatus, updateCourseStatusSpecC3, hnt, hnp, hnl,
      prepareCourseTakenUpdatedInfo, currentLessonId, currentPartId, findPartOpt]

/-- Witness for the amended C3: on the `L = P = T = 2` course the step from
`(1,1,1)` is a test-level increment, and the code's step coincides with the
spec-worded variant. -/
theorem updateCourseStatus_eq_specC3_witness :
    nextTest Htwo ct0 = some 2 ∧
    updateCourseStatus Htwo 0 ct0 = updateCourseStatusSpecC3 Htwo 0 ct0 :=
  ⟨rfl, (updateCourseStatus_eq_specC3 Htwo 0 ct0).1 2 rfl⟩

/-- Claim C6 (amended): `courseCompleteDate` is assigned (to the current
time) by every advancement step that finds no next test, part or lesson —
not only by the first one — and is left unchanged by advancement steps that
do find a next unit. -/
theorem updateCourseStatus_courseCompleteDate (H : Hierarchy) (now : Nat) (ct : CourseTaken) :
    (nextTest H ct = none → nextPart H ct = none → nextLesson H ct = none →
      (updateCourseStatus H now ct).status = CourseTakenStatusEnum.COMPLETED ∧
      (updateCourseStatus H now ct).courseCompleteDate = some now) ∧
    ((nextTest H ct ≠ none ∨ nextPart H ct ≠ none ∨ nextLesson H ct ≠ none) →
      (updateCourseStatus H now ct).courseCompleteDate = ct.courseCompleteDate) := by
  constructor
  · intro h1 h2 h3
    constructor <;>
      simp [updateCourseStatus, prepareCourseTakenUpdatedInfo, h1, h2, h3]
  · intro hne
    rcases hnt : nextTest H ct with _ | tid
    · rcases hnp : nextPart H ct with _ | pid
      · rcases hnl : nextLesson H ct with _ | lid
        · rcases hne with h | h | h
          · exact absurd hnt h
          · exact absurd hnp h
          · exact absurd hnl h
        · simp [updateCourseStatus, prepareCourseTakenUpdatedInfo, hnt, hnp, hnl]
      · simp [updateCourseStatus, prepareCourseTakenUpdatedInfo, hnt, hnp]
    · simp [updateCourseStatus, prepareCourseTakenUpdatedInfo, hnt]

/-- Witness for the amended C6 on the empty course at time 5. -/
theorem updateCourseStatus_courseCompleteDate_witness :
    nextTest Hempty ct0 = none ∧ nextPart Hempty ct0 = none ∧
    nextLesson Hempty ct0 = none ∧
    (updateCourseStatus Hempty 5 ct0).status = CourseTakenStatusEnum.COMPLETED ∧
    (updateCourseStatus Hempty 5 ct0).courseCompleteDate = some 5 :=
  ⟨rfl, rfl, rfl,
   ((updateCourseStatus_courseCompleteDate Hempty 5 ct0).1 rfl rfl rfl).1,
   ((updateCourseStatus_courseCompleteDate Hempty 5 ct0).1 rfl rfl rfl).2⟩

/-! ### Store lemmas for enrollment uniqueness -/

/-- At most one record per `(user, course)` key. -/
def UniqueKeys (store : EnrollmentStore) : Prop :=
  store.Pairwise fun a b => a.1 ≠ b.1

lemma findRecord_saveRecord (store : EnrollmentStore) (u c : Nat) (e : CourseTaken) :
    findRecord (saveRecord store u c e) u c = some e := by
  induction store with
  | nil => simp [saveRecord, findRecord]
  | cons r rest ih =>
    by_cases hr : r.1 = (u, c)
    · simp [saveRecord, hr, findRecord]
    · simp [saveRecord, hr, findRecord, ih]

lemma mem_saveRecord (store : EnrollmentStore) (u c : Nat) (e : CourseTaken)
    (x : (Nat × Nat) × CourseTaken) (hx : x ∈ saveRecord store u c e) :
    x.1 = (u, c) ∨ x ∈ store := by
  induction store with
  | nil =>
    simp only [saveRecord, List.mem_singleton] at hx
    subst hx
    exact Or.inl rfl
  | cons r rest ih =>
    by_cases hr : r.1 = (u, c)
    · simp only [saveRecord, if_pos hr, List.mem_cons] at hx
      rcases hx with hx | hx
      · subst hx
        exact Or.inl rfl
      · exact Or.inr (List.mem_cons_of_mem r hx)
    · simp only [saveRecord, if_neg hr, List.mem_cons] at hx
      rcases hx with hx | hx
      · subst hx
        exact Or.inr (List.mem_cons_self x rest)
      · rcases ih hx with h | h
        · exact Or.inl h
        · exact Or.inr (List.mem_cons_of_mem r h)

lemma uniqueKeys_saveRecord (store : EnrollmentStore) (u c : Nat) (e : CourseTaken)
    (hU : UniqueKeys store) : UniqueKeys (saveRecord store u c e) := by
  induction store with
  | nil =>
    simp [saveRecord, UniqueKeys]
  | cons r rest ih =>
    obtain ⟨hhead, htail⟩ := List.pairwise_cons.mp hU
    by_cases hr : r.1 = (u, c)
    · rw [UniqueKeys]
      simp only [saveRecord, if_pos hr]
      refine List.pairwise_cons.mpr ⟨fun b hb => ?_, htail⟩
      have := hhead b hb
      rw [hr] at this
      exact this
    · rw [UniqueKeys]
      simp only [saveRecord, if_neg hr]
      refine List.pairwise_cons.mpr ⟨fun b hb => ?_, ih htail⟩
      rcases mem_saveRecord rest u c e b hb with h | h
      · rw [h]
        exact hr
      · exact hhead b h

lemma add_ok_found (H : Hierarchy) (now fuel : Nat) (store : EnrollmentStore)
    (u c : Nat) (d : AttendAClassDTO) (store2 : EnrollmentStore)
    (h : add H now fuel store u c = some (Except.ok d, store2)) :
    ∃ ct2, findRecord store2 u c = some ct2 := by
  cases hfr : findRecord store u c with
  | some ct1 =>
    simp only [add, hfr, Option.some.injEq, Prod.mk.injEq] at h
    exact absurd h.1 (fun hc => Except.noConfusion hc)
  | none =>
    simp only [add, hfr] at h
    cases has : attendAClassStore H now fuel (saveRecord store u c (freshEnrollment now)) u c with
    | none =>
      rw [has] at h
      exact Option.noConfusion h
    | some res =>
      cases res with
      | error e =>
        rw [has] at h
        simp only [Option.some.injEq, Prod.mk.injEq] at h
        exact absurd h.1 (fun hc => Except.noConfusion hc)
      | ok p =>
        obtain ⟨d', st'⟩ := p
        rw [has] at h
        simp only [Option.some.injEq, Prod.mk.injEq] at h
        rw [attendAClassStore, findRecord_saveRecord] at has
        dsimp only at has
        cases haa : attendAClass H now fuel (freshEnrollment now) with
        | none =>
          rw [haa] at has
          exact Option.noConfusion has
        | some q =>
          obtain ⟨dd, ct2⟩ := q
          rw [haa] at has
          simp only [Option.some.injEq, Except.ok.injEq, Prod.mk.injEq] at has
          refine ⟨ct2, ?_⟩
          rw [← h.2, ← has.2]
          exact findRecord_saveRecord _ u c ct2

lemma add_result_store (H : Hierarchy) (now fuel : Nat) (store : EnrollmentStore)
    (u c : Nat) (r : Except ServiceError AttendAClassDTO) (store2 : EnrollmentStore)
    (h : add H now fuel store u c = some (r, store2)) :
    store2 = store ∨
    ∃ ct2, store2 = saveRecord (saveRecord store u c (freshEnrollment now)) u c ct2 := by
  cases hfr : findRecord store u c with
  | some ct1 =>
    simp only [add, hfr, Option.some.injEq, Prod.mk.injEq] at h
    exact Or.inl h.2.symm
  | none =>
    simp only [add, hfr] at h
    cases has : attendAClassStore H now fuel (saveRecord store u c (freshEnrollment now)) u c with
    | none =>
      rw [has] at h
      exact Option.noConfusion h
    | some res =>
      cases res with
      | error e =>
        rw [has] at h
        simp only [Option.some.injEq, Prod.mk.injEq] at h
        exact Or.inl h.2.symm
      | ok p =>
        obtain ⟨d', st'⟩ := p
        rw [has] at h
        simp only [Option.some.injEq, Prod.mk.injEq] at h
        rw [attendAClassStore, findRecord_saveRecord] at has
        dsimp only at has
        cases haa : attendAClass H now fuel (freshEnrollment now) with
        | none =>
          rw [haa] at has
          exact Option.noConfusion has
        | some q =>
          obtain ⟨dd, ct2⟩ := q
          rw [haa] at has
          simp only [Option.some.injEq, Except.ok.injEq, Prod.mk.injEq] at has
          refine Or.inr ⟨ct2, ?_⟩
          rw [← h.2, ← has.2]

/-- Claim C8: enrolling a pair that already has a record fails with the
conflict error and leaves the store unchanged; after a successful
enrollment any further `add` for the same pair fails with the conflict
error and leaves the store unchanged; and `add` preserves the at-most-one-
record-per-pair invariant of the store. -/
theorem add_enrollment_unique (H : Hierarchy) (now fuel : Nat) (store : EnrollmentStore)
    (u c : Nat) :
    (∀ ct, findRecord store u c = some ct →
      add H now fuel store u c =
        some (Except.error (ServiceError.conflictException "Course already taken by user"),
          store)) ∧
    (∀ d store2 now2 fuel2, add H now fuel store u c = some (Except.ok d, store2) →
      add H now2 fuel2 store2 u c =
        some (Except.error (ServiceError.conflictException "Course already taken by user"),
          store2)) ∧
    (∀ r store2, UniqueKeys store → add H now fuel store u c = some (r, store2) →
      UniqueKeys store2) := by
  refine ⟨fun ct h => ?_, fun d store2 now2 fuel2 h => ?_, fun r store2 hU h => ?_⟩
  · simp [add, h]
  · obtain ⟨ct2, hf⟩ := add_ok_found H now fuel store u c d store2 h
    simp [add, hf]
  · rcases add_result_store H now fuel store u c r store2 h with h2 | ⟨ct2, h2⟩
    · rw [h2]
      exact hU
    · rw [h2]
      exact uniqueKeys_saveRecord _ u c ct2 (uniqueKeys_saveRecord store u c _ hU)

/-- Witness for C8: a second enrollment of the pair `(0, 0)` conflicts. -/
theorem add_enrollment_unique_witness :
    findRecord [((0, 0), ct0)] 0 0 = some ct0 ∧
    add Hempty 7 1 [((0, 0), ct0)] 0 0 =
      some (Except.error (ServiceError.conflictException "Course already taken by user"),
        [((0, 0), ct0)]) :=
  ⟨rfl, (add_enrollment_unique Hempty 7 1 [((0, 0), ct0)] 0 0).1 ct0 rfl⟩

/-- Claim C9 (amended): whenever the three queried cardinalities are
positive and the pointers are 1-based, the recomputed completion lies in
`[0, 100]` (the clamp bounds it above, nonnegativity of every term bounds
it below); the positivity proviso is necessary — see the zero-divisor
counterexample. -/
theorem calculateCompletition_bounds (H : Hierarchy) (ct : CourseTaken)
    (lid pid : Option Nat) (h1 : 1 ≤ ct.currentLesson) (h2 : 1 ≤ ct.currentPart)
    (h3 : 1 ≤ ct.currentTest) (hL : 0 < H.getMaxValueForLesson)
    (hP : 0 < maxPartOpt H lid) (hT : 0 < maxTestOpt H pid) :
    0 ≤ calculateCompletition H ct lid pid ∧
    calculateCompletition H ct lid pid ≤ 100 := by
  cases hst : ct.status with
  | COMPLETED =>
    rw [calc_completed H ct lid pid hst]
    norm_num
  | TAKEN =>
    simp only [calculateCompletition, hst, if_true]
    have e1 : (0 : ℚ) ≤ 100 / (H.getMaxValueForLesson : ℚ) := by positivity
    have e2 : (0 : ℚ) ≤ 100 / (H.getMaxValueForLesson : ℚ) / (maxPartOpt H lid : ℚ) := by
      positivity
    have e3 : (0 : ℚ) ≤ 100 / (H.getMaxValueForLesson : ℚ) / (maxPartOpt H lid : ℚ) /
        (maxTestOpt H pid : ℚ) := by positivity
    have x1 : (0 : ℚ) ≤ (ct.currentLesson : ℚ) - 1 := by
      have : (1 : ℚ) ≤ (ct.currentLesson : ℚ) := by exact_mod_cast h1
      linarith
    have x2 : (0 : ℚ) ≤ (ct.currentPart : ℚ) - 1 := by
      have : (1 : ℚ) ≤ (ct.currentPart : ℚ) := by exact_mod_cast h2
      linarith
    have x3 : (0 : ℚ) ≤ (ct.currentTest : ℚ) - 1 := by
      have : (1 : ℚ) ≤ (ct.currentTest : ℚ) := by exact_mod_cast h3
      linarith
    have hc0 : (0 : ℚ) ≤ 100 / (H.getMaxValueForLesson : ℚ) * ((ct.currentLesson : ℚ) - 1)
        + 100 / (H.getMaxValueForLesson : ℚ) / (maxPartOpt H lid : ℚ) *
            ((ct.currentPart : ℚ) - 1)
        + 100 / (H.getMaxValueForLesson : ℚ) / (maxPartOpt H lid : ℚ) /
            (maxTestOpt H pid : ℚ) * ((ct.currentTest : ℚ) - 1) := by
      have t1 := mul_nonneg e1 x1
      have t2 := mul_nonneg e2 x2
      have t3 := mul_nonneg e3 x3
      linarith
    split_ifs with hover
    · norm_num
    · refine ⟨hc0, ?_⟩
      linarith [not_lt.mp hover]

/-- Witness for the amended C9 at the concrete `L = P = T = 2`, `(2,2,2)`
configuration. -/
theorem calculateCompletition_bounds_witness :
    (1 ≤ ct222.currentLesson ∧ 1 ≤ ct222.currentPart ∧ 1 ≤ ct222.currentTest ∧
     0 < Htwo.getMaxValueForLesson ∧ 0 < maxPartOpt Htwo (some 1) ∧
     0 < maxTestOpt Htwo (some 1)) ∧
    0 ≤ calculateCompletition Htwo ct222 (some 1) (some 1) ∧
    calculateCompletition Htwo ct222 (some 1) (some 1) ≤ 100 :=
  ⟨⟨by decide, by decide, by decide, by decide, by decide, by decide⟩,
   calculateCompletition_bounds Htwo ct222 (some 1) (some 1)
     (by decide) (by decide) (by decide) (by decide) (by decide) (by decide)⟩

/-- Claim C10 (amended): for a course with no lesson at sequence 1 *nor at
sequence 2* (in particular for a course with no lessons at all), enrolling
immediately completes the enrollment: the snapshot has status COMPLETED,
completion 100 and no resolved units, and the persisted record is COMPLETED
with `courseCompleteDate` set to the enrollment time.  (A lesson at
sequence 2 alone defeats the claim — see the counterexample.) -/
theorem add_emptyCourse_completes (H : Hierarchy) (now fuel : Nat)
    (store : EnrollmentStore) (u c : Nat)
    (hl1 : H.findLessonByCourseIdAndSeqNum 1 = none)
    (hl2 : H.findLessonByCourseIdAndSeqNum 2 = none)
    (h0 : findRecord store u c = none) :
    add H now (fuel + 1) store u c =
      some (Except.ok
        { currentLesson := none, currentPart := none, currentTest := none,
          completition := 100, status := CourseTakenStatusEnum.COMPLETED },
        saveRecord (saveRecord store u c (freshEnrollment now)) u c
          { currentLesson := 1, currentPart := 1, currentTest := 1,
            status := CourseTakenStatusEnum.COMPLETED, completition := 100,
            courseStartDate := now, courseCompleteDate := some now }) ∧
    findRecord
        (saveRecord (saveRecord store u c (freshEnrollment now)) u c
          { currentLesson := 1, currentPart := 1, currentTest := 1,
            status := CourseTakenStatusEnum.COMPLETED, completition := 100,
            courseStartDate := now, courseCompleteDate := some now }) u c =
      some
        { currentLesson := 1, currentPart := 1, currentTest := 1,
          status := CourseTakenStatusEnum.COMPLETED, completition := 100,
          courseStartDate := now, courseCompleteDate := some now } := by
  have hupd : updateCourseStatus H now (freshEnrollment now) =
      { currentLesson := 1, currentPart := 1, currentTest := 1,
        status := CourseTakenStatusEnum.COMPLETED, completition := 100,
        courseStartDate := now, courseCompleteDate := some now } := by
    have hnt : nextTest H (freshEnrollment now) = none := by
      simp [nextTest, findTestOpt, currentPartId, findPartOpt, currentLessonId,
        freshEnrollment, hl1]
    have hnp : nextPart H (freshEnrollment now) = none := by
      simp [nextPart, findPartOpt, currentLessonId, freshEnrollment, hl1]
    have hnl : nextLesson H (freshEnrollment now) = none := by
      simp [nextLesson, freshEnrollment, hl2]
    simp only [updateCourseStatus, hnt, hnp, hnl, prepareCourseTakenUpdatedInfo]
    simp [freshEnrollment, calculateCompletition]
  have hres : resolveTriple H (freshEnrollment now) = none := by
    simp [resolveTriple, currentLessonId, freshEnrollment, hl1]
  have hatt : attendAClass H now (fuel + 1) (freshEnrollment now) =
      some
        ({ currentLesson := none, currentPart := none, currentTest := none,
           completition := 100, status := CourseTakenStatusEnum.COMPLETED },
         { currentLesson := 1, currentPart := 1, currentTest := 1,
           status := CourseTakenStatusEnum.COMPLETED, completition := 100,
           courseStartDate := now, courseCompleteDate := some now }) := by
    rw [attendAClass_succ, hres]
    simp only [hupd, if_true]
    rfl
  constructor
  · simp only [add, h0, attendAClassStore, findRecord_saveRecord, hatt]
  · exact findRecord_saveRecord _ u c _

/-- Witness for the amended C10: enrolling user 0 in the empty course at
time 4. -/
theorem add_emptyCourse_completes_witness :
    Hempty.findLessonByCourseIdAndSeqNum 1 = none ∧
    Hempty.findLessonByCourseIdAndSeqNum 2 = none ∧
    findRecord [] 0 0 = none ∧
    (add Hempty 4 1 [] 0 0 =
      some (Except.ok
        { currentLesson := none, currentPart := none, currentTest := none,
          completition := 100, status := CourseTakenStatusEnum.COMPLETED },
        saveRecord (saveRecord [] 0 0 (freshEnrollment 4)) 0 0
          { currentLesson := 1, currentPart := 1, currentTest := 1,
            status := CourseTakenStatusEnum.COMPLETED, completition := 100,
            courseStartDate := 4, courseCompleteDate := some 4 }) ∧
     findRecord
        (saveRecord (saveRecord [] 0 0 (freshEnrollment 4)) 0 0
          { currentLesson := 1, currentPart := 1, currentTest := 1,
            status := CourseTakenStatusEnum.COMPLETED, completition := 100,
            courseStartDate := 4, courseCompleteDate := some 4 }) 0 0 =
      some
        { currentLesson := 1, currentPart := 1, currentTest := 1,
          status := CourseTakenStatusEnum.COMPLETED, completition := 100,
          courseStartDate := 4, courseCompleteDate := some 4 }) :=
  ⟨rfl, rfl, rfl, add_emptyCourse_completes Hempty 4 0 [] 0 0 rfl rfl rfl⟩

end NewSchool
